import Mathlib

/-!
# GLTexture (gl/gl_texture.h): deferred realization of an OpenGL texture name

Shallow embedding of the class `gvr::GLTexture`.  The object is a record of its four
data members; the OpenGL driver is an explicit context value that is threaded
through every operation and records each call it receives.
-/

namespace gvr

/-! ## Machine integers -/

/-- Conversion of a C `int` to `GLuint` / `GLenum` (32-bit unsigned): reduction modulo 2^32. -/
def toGLuint (x : Int) : Nat := (x % 2 ^ 32).toNat

/-- Conversion of a 32-bit unsigned value to `GLint` (two-complement reinterpretation). -/
def toGLint (u : Nat) : Int :=
  if u % 2 ^ 32 < 2 ^ 31 then (u % 2 ^ 32 : Nat) else (u % 2 ^ 32 : Nat) - 2 ^ 32

/-- Range of the C type `int` (32 bits). -/
def IsInt32 (x : Int) : Prop := -2 ^ 31 ≤ x ∧ x < 2 ^ 31

instance (x : Int) : Decidable (IsInt32 x) := by unfold IsInt32; infer_instance

/-- Spacing between consecutive binary32 values at magnitude `a` (24-bit significand),
for the magnitudes a 32-bit integer can take. -/
def ulp32 (a : Nat) : Nat :=
  if a < 2 ^ 24 then 1
  else if a < 2 ^ 25 then 2
  else if a < 2 ^ 26 then 4
  else if a < 2 ^ 27 then 8
  else if a < 2 ^ 28 then 16
  else if a < 2 ^ 29 then 32
  else if a < 2 ^ 30 then 64
  else if a < 2 ^ 31 then 128
  else 256

/-- Nearest multiple of `u` to `a`, a tie going to the even multiple. -/
def roundNearestEven (a u : Nat) : Nat :=
  if 2 * (a % u) < u then a / u * u
  else if u < 2 * (a % u) then (a / u + 1) * u
  else if a / u % 2 = 0 then a / u * u
  else (a / u + 1) * u

/-- Value of `(float) n` for a C `int` n: the nearest binary32 value (round to nearest,
ties to even).  Every such value is an integer, so the float is represented by its exact
value. -/
def floatOfInt (n : Int) : Int :=
  if 0 ≤ n then (roundNearestEven n.toNat (ulp32 n.toNat) : Nat)
  else -(roundNearestEven (-n).toNat (ulp32 (-n).toNat) : Nat)

/-! ## OpenGL constants -/

/-- Defined in gl_texture.h, line 25. -/
def GL_TEXTURE_MAX_ANISOTROPY_EXT : Nat := 0x84FE

/-- Defined in gl_texture.h, line 37. -/
abbrev MAX_TEXTURE_PARAM_NUM : Nat := 10

/-- Modelled from the spec: GL_TEXTURE_2D is declared in gl/gl_headers.h (the OpenGL ES
headers, not part of the sources); it carries its Khronos value. -/
def GL_TEXTURE_2D : Nat := 0x0DE1

/-- Modelled from the spec: GL_TEXTURE_CUBE_MAP is declared in gl/gl_headers.h (the OpenGL ES
headers, not part of the sources); it carries its Khronos value.  The class does not name
it: it serves as a target other than GL_TEXTURE_2D in the sample inputs. -/
def GL_TEXTURE_CUBE_MAP : Nat := 0x8513

/-- Modelled from the spec: GL_TEXTURE_MAG_FILTER is declared in gl/gl_headers.h (the OpenGL ES
headers, not part of the sources); it carries its Khronos value. -/
def GL_TEXTURE_MAG_FILTER : Nat := 0x2800

/-- Modelled from the spec: GL_TEXTURE_MIN_FILTER is declared in gl/gl_headers.h (the OpenGL ES
headers, not part of the sources); it carries its Khronos value. -/
def GL_TEXTURE_MIN_FILTER : Nat := 0x2801

/-- Modelled from the spec: GL_TEXTURE_WRAP_S is declared in gl/gl_headers.h (the OpenGL ES
headers, not part of the sources); it carries its Khronos value. -/
def GL_TEXTURE_WRAP_S : Nat := 0x2802

/-- Modelled from the spec: GL_TEXTURE_WRAP_T is declared in gl/gl_headers.h (the OpenGL ES
headers, not part of the sources); it carries its Khronos value. -/
def GL_TEXTURE_WRAP_T : Nat := 0x2803

/-- Modelled from the spec: GL_TEXTURE_WRAP_R is declared in gl/gl_headers.h (the OpenGL ES
headers, not part of the sources); it carries its Khronos value. -/
def GL_TEXTURE_WRAP_R : Nat := 0x8072

/-- Modelled from the spec: GL_CLAMP_TO_EDGE is declared in gl/gl_headers.h (the OpenGL ES
headers, not part of the sources); it carries its Khronos value. -/
def GL_CLAMP_TO_EDGE : Int := 0x812F

/-- Modelled from the spec: GL_LINEAR is declared in gl/gl_headers.h (the OpenGL ES
headers, not part of the sources); it carries its Khronos value. -/
def GL_LINEAR : Int := 0x2601

/-! ## The OpenGL driver

The driver is outside the repository.  Each entry point used by the class appends the call
and its arguments to the log of the context; `glGenTextures` also returns the name the
context hands out. -/

/-- One call received by the driver, with the arguments it was given. -/
inductive GLCall where
  /-- The call `glGenTextures(n, out)`, together with the names the driver wrote to `out`. -/
  | genTextures (n : Nat) (written : List Nat)
  /-- The call `glBindTexture(target, texture)`. -/
  | bindTexture (target texture : Nat)
  /-- The call `glTexParameteri(target, pname, param)`. -/
  | texParameteri (target pname : Nat) (param : Int)
  /-- The call `glTexParameterf(target, pname, param)`; the float is given by its value. -/
  | texParameterf (target pname : Nat) (param : Int)
  /-- The call `glTexImage2D(target, level, internalformat, width, height, border, format,
  type, pixels)`; `pixels` is `none` for a null pointer. -/
  | texImage2D (target : Nat) (level internalformat width height border : Int)
      (format type : Nat) (pixels : Option Nat)
  /-- The call `glDeleteTextures(n, names)`. -/
  | deleteTextures (n : Nat) (names : List Nat)
  deriving DecidableEq, Repr

/-- The graphics context: the names its successive `glGenTextures` calls hand out, how
many it has handed out, and the calls it has received, oldest first. -/
structure GLContext where
  names : Nat → Nat
  generated : Nat
  log : List GLCall

/-- Name the next `glGenTextures(1, _)` will write. -/
def GLContext.nextName (g : GLContext) : Nat := g.names g.generated

/-- The call `glGenTextures(1, &x)`: returns the value written to `x`. -/
def glGenTextures (g : GLContext) : Nat × GLContext :=
  (g.nextName,
    ⟨g.names, g.generated + 1, g.log ++ [GLCall.genTextures 1 [g.nextName]]⟩)

/-- The call `glBindTexture(target, texture)`. -/
def glBindTexture (target texture : Nat) (g : GLContext) : GLContext :=
  ⟨g.names, g.generated, g.log ++ [GLCall.bindTexture target texture]⟩

/-- The call `glTexParameteri(target, pname, param)`. -/
def glTexParameteri (target pname : Nat) (param : Int) (g : GLContext) : GLContext :=
  ⟨g.names, g.generated, g.log ++ [GLCall.texParameteri target pname param]⟩

/-- The call `glTexParameterf(target, pname, param)`. -/
def glTexParameterf (target pname : Nat) (param : Int) (g : GLContext) : GLContext :=
  ⟨g.names, g.generated, g.log ++ [GLCall.texParameterf target pname param]⟩

/-- The call `glTexImage2D(...)`; `format` and `type` are `GLenum` parameters. -/
def glTexImage2D (target : Nat) (level internalformat width height border : Int)
    (format type : Nat) (pixels : Option Nat) (g : GLContext) : GLContext :=
  ⟨g.names, g.generated,
    g.log ++ [GLCall.texImage2D target level internalformat width height border format type pixels]⟩

/-- Values of the anonymous enum of pending tasks (lines 147-151). -/
def GL_TASK_NONE : Int := 0

/-- Second enumerator. -/
def GL_TASK_INIT_NO_PARAM : Int := 1

/-- Third enumerator. -/
def GL_TASK_INIT_WITH_PARAM : Int := 2

/-- Data members of `GLTexture` (lines 141-154). -/
structure GLTexture where
  id_ : Nat
  target_ : Nat
  pending_gl_task_ : Int
  texture_parameters_ : Fin MAX_TEXTURE_PARAM_NUM → Int

/-- Content of the storage an object is constructed in, for the two members that have no
default member initializer (`pending_gl_task_`, `texture_parameters_`): a constructor
that does not write such a member leaves this content in place. -/
structure RawStorage where
  pending_gl_task_ : Int
  texture_parameters_ : Fin MAX_TEXTURE_PARAM_NUM → Int

/-- Constructor `GLTexture(GLenum target)` (lines 42-47). -/
def GLTexture.ctorDefault (raw : RawStorage) (target : Nat) (g : GLContext) :
    GLTexture × GLContext :=
  -- id_ = 0 (default member initializer), target_(target), pending_gl_task_(GL_TASK_NONE)
  let t : GLTexture := ⟨0, target, GL_TASK_NONE, raw.texture_parameters_⟩
  -- pending_gl_task_ = GL_TASK_INIT_NO_PARAM;
  (⟨t.id_, t.target_, GL_TASK_INIT_NO_PARAM, t.texture_parameters_⟩, g)

/-- Constructor `GLTexture(GLenum target, int texture_id)` (lines 48-51). -/
def GLTexture.ctorAdopt (raw : RawStorage) (target : Nat) (texture_id : Int) (g : GLContext) :
    GLTexture × GLContext :=
  -- id_ = 0 (default member initializer), target_(target); the other two members are
  -- not written
  let t : GLTexture := ⟨0, target, raw.pending_gl_task_, raw.texture_parameters_⟩
  -- id_ = texture_id;
  (⟨toGLuint texture_id, t.target_, t.pending_gl_task_, t.texture_parameters_⟩, g)

/-- Constructor `GLTexture(GLenum target, int* texture_parameters)` (lines 52-56); the
argument is the content of the ten ints the pointer designates. -/
def GLTexture.ctorParams (raw : RawStorage) (target : Nat)
    (texture_parameters : Fin MAX_TEXTURE_PARAM_NUM → Int) (g : GLContext) :
    GLTexture × GLContext :=
  -- id_ = 0 (default member initializer), target_(target)
  let t : GLTexture := ⟨0, target, raw.pending_gl_task_, raw.texture_parameters_⟩
  -- pending_gl_task_ = GL_TASK_INIT_WITH_PARAM;
  let t : GLTexture := ⟨t.id_, t.target_, GL_TASK_INIT_WITH_PARAM, t.texture_parameters_⟩
  -- std::memcpy(texture_parameters_, texture_parameters, sizeof(texture_parameters_));
  (⟨t.id_, t.target_, t.pending_gl_task_, fun i => texture_parameters i⟩, g)

/-- Body of `case GL_TASK_INIT_NO_PARAM` (lines 78-88). -/
def GLTexture.initNoParam (t : GLTexture) (g : GLContext) : GLTexture × GLContext :=
  let r := glGenTextures g
  let t : GLTexture := ⟨r.1, t.target_, t.pending_gl_task_, t.texture_parameters_⟩
  let g := r.2
  let g := glBindTexture t.target_ t.id_ g
  let g := glTexParameteri t.target_ GL_TEXTURE_WRAP_S GL_CLAMP_TO_EDGE g
  let g := glTexParameteri t.target_ GL_TEXTURE_WRAP_T GL_CLAMP_TO_EDGE g
  let g := glTexParameteri t.target_ GL_TEXTURE_WRAP_R GL_CLAMP_TO_EDGE g
  let g := glTexParameteri t.target_ GL_TEXTURE_MIN_FILTER GL_LINEAR g
  let g := glTexParameteri t.target_ GL_TEXTURE_MAG_FILTER GL_LINEAR g
  let g := glBindTexture t.target_ 0 g
  (t, g)

/-- Body of `case GL_TASK_INIT_WITH_PARAM` (lines 90-128). -/
def GLTexture.initWithParam (t : GLTexture) (g : GLContext) : GLTexture × GLContext :=
  -- GLenum min_filter_type_ = texture_parameters_[0]; and so on: int to unsigned
  let min_filter_type_ : Nat := toGLuint (t.texture_parameters_ 0)
  let mag_filter_type_ : Nat := toGLuint (t.texture_parameters_ 1)
  let wrap_s_type_ : Nat := toGLuint (t.texture_parameters_ 3)
  let wrap_t_type_ : Nat := toGLuint (t.texture_parameters_ 4)
  let r := glGenTextures g
  let t : GLTexture := ⟨r.1, t.target_, t.pending_gl_task_, t.texture_parameters_⟩
  let g := r.2
  let g := glBindTexture t.target_ t.id_ g
  -- if (texture_parameters_[2] > 1.0f): the int is converted to float for the comparison
  let g :=
    if 1 < floatOfInt (t.texture_parameters_ 2) then
      glTexParameterf t.target_ GL_TEXTURE_MAX_ANISOTROPY_EXT
        (floatOfInt (t.texture_parameters_ 2)) g
    else g
  -- the third parameter of glTexParameteri is a GLint: unsigned back to int
  let g := glTexParameteri t.target_ GL_TEXTURE_WRAP_S (toGLint wrap_s_type_) g
  let g := glTexParameteri t.target_ GL_TEXTURE_WRAP_T (toGLint wrap_t_type_) g
  let g := glTexParameteri t.target_ GL_TEXTURE_MIN_FILTER (toGLint min_filter_type_) g
  let g := glTexParameteri t.target_ GL_TEXTURE_MAG_FILTER (toGLint mag_filter_type_) g
  let internalFormat : Int := t.texture_parameters_ 5
  let width : Int := t.texture_parameters_ 6
  let height : Int := t.texture_parameters_ 7
  let format : Int := t.texture_parameters_ 8
  let type : Int := t.texture_parameters_ 9
  let g :=
    if 0 < internalFormat ∧ 0 < width ∧ 0 < height ∧ 0 < format ∧ 0 < type then
      glTexImage2D GL_TEXTURE_2D 0 internalFormat width height 0
        (toGLuint format) (toGLuint type) none g
    else g
  let g := glBindTexture t.target_ 0 g
  (t, g)

/-- Method `runPendingGL()` (lines 73-133). -/
def GLTexture.runPendingGL (t : GLTexture) (g : GLContext) : GLTexture × GLContext :=
  if t.pending_gl_task_ = GL_TASK_NONE then
    (t, g) -- return
  else
    let r :=
      if t.pending_gl_task_ = GL_TASK_INIT_NO_PARAM then t.initNoParam g
      else if t.pending_gl_task_ = GL_TASK_INIT_WITH_PARAM then t.initWithParam g
      else (t, g) -- no case label matches, the switch has no default
    -- pending_gl_task_ = GL_TASK_NONE;
    (⟨r.1.id_, r.1.target_, GL_TASK_NONE, r.1.texture_parameters_⟩, r.2)

/-- Method `id()` (lines 64-67): the returned value, the object and the context afterwards. -/
def GLTexture.id (t : GLTexture) (g : GLContext) : Nat × GLTexture × GLContext :=
  let r := t.runPendingGL g
  (r.1.id_, r.1, r.2)

/-- Method `target() const` (lines 69-71): the returned value, the object and the context
afterwards. -/
def GLTexture.target (t : GLTexture) (g : GLContext) : Nat × GLTexture × GLContext :=
  (t.target_, t, g)

/-! ## Observations on the call log -/

/-- Calls the driver received between the context `g` and the later context `g2`. -/
def issued (g g2 : GLContext) : List GLCall := g2.log.drop g.log.length

/-- Recognizes a `glGenTextures` call. -/
def GLCall.isGenTextures : GLCall → Bool
  | .genTextures _ _ => true
  | _ => false

/-- Recognizes a storage-allocation call (`glTexImage2D`). -/
def GLCall.isTexImage2D : GLCall → Bool
  | .texImage2D _ _ _ _ _ _ _ _ _ => true
  | _ => false

/-- Recognizes an anisotropy-set call: `glTexParameterf` on GL_TEXTURE_MAX_ANISOTROPY_EXT. -/
def GLCall.isAnisotropy : GLCall → Bool
  | .texParameterf _ pname _ => pname == GL_TEXTURE_MAX_ANISOTROPY_EXT
  | _ => false

/-- The texture-target argument of a call, for the calls that take one. -/
def GLCall.targetArg : GLCall → Option Nat
  | .bindTexture target _ => some target
  | .texParameteri target _ _ => some target
  | .texParameterf target _ _ => some target
  | .texImage2D target _ _ _ _ _ _ _ _ => some target
  | _ => none

/-- The (target, pname, param) of a `glTexParameteri` call. -/
def GLCall.intParameter : GLCall → Option (Nat × Nat × Int)
  | .texParameteri target pname param => some (target, pname, param)
  | _ => none

/-- The public operations on a live object. -/
inductive Method where
  | id
  | target
  | runPendingGL
  deriving DecidableEq, Repr

/-- Effect of one operation on the object and the context (the returned value is dropped). -/
def Method.exec : Method → GLTexture × GLContext → GLTexture × GLContext
  | .id, s => (s.1.id s.2).2
  | .target, s => (s.1.target s.2).2
  | .runPendingGL, s => s.1.runPendingGL s.2

/-- Effect of a sequence of operations, first to last. -/
def execAll (ms : List Method) (s : GLTexture × GLContext) : GLTexture × GLContext :=
  ms.foldl (fun s m => m.exec s) s

/-- The predicate "a task is pending implies id = 0". -/
def PendingImpliesUnrealized (t : GLTexture) : Prop :=
  t.pending_gl_task_ ≠ GL_TASK_NONE → t.id_ = 0

instance (t : GLTexture) : Decidable (PendingImpliesUnrealized t) := by
  unfold PendingImpliesUnrealized; infer_instance

/-! ## Sample inputs -/

/-- A context with an empty log whose k-th generated name is k + 1. -/
def freshContext : GLContext := ⟨fun k => k + 1, 0, []⟩

/-- Storage whose former content is all zero. -/
def zeroStorage : RawStorage := ⟨0, fun _ => 0⟩

/-- Storage whose former content has 1 where `pending_gl_task_` will live. -/
def staleStorage : RawStorage := ⟨1, fun _ => 0⟩

/-- Parameters {GL_NEAREST, GL_LINEAR, 1, GL_CLAMP_TO_EDGE, GL_REPEAT, 0, 0, 0, 0, 0}. -/
def samplerParams : Fin MAX_TEXTURE_PARAM_NUM → Int :=
  ![9728, 9729, 1, 33071, 10497, 0, 0, 0, 0, 0]

/-- Parameters with the anisotropy 2^24 + 1, which no binary32 value equals. -/
def anisoParams : Fin MAX_TEXTURE_PARAM_NUM → Int :=
  ![9729, 9729, 16777217, 33071, 33071, 0, 0, 0, 0, 0]

/-- The same with width -1. -/
def badWidthParams : Fin MAX_TEXTURE_PARAM_NUM → Int :=
  ![9729, 9729, 1, 33071, 33071, 6408, -1, 256, 6408, 5121]

/-! ## Integer and float conversions -/

theorem toGLint_toGLuint (x : Int) (h : IsInt32 x) : toGLint (toGLuint x) = x := by
  unfold IsInt32 at h
  unfold toGLint toGLuint
  split_ifs <;> omega

theorem toGLuint_eq_toNat (x : Int) (h0 : 0 ≤ x) (h : IsInt32 x) : toGLuint x = x.toNat := by
  unfold IsInt32 at h
  unfold toGLuint
  omega

theorem ulp32_spec (a : Nat) :
    (a < 2 ^ 24 ∧ ulp32 a = 1) ∨ (2 ^ 24 ≤ a ∧ 2 ≤ ulp32 a ∧ ulp32 a ≤ 256) := by
  unfold ulp32
  split_ifs <;> omega

theorem ulp32_at_pow24 : ulp32 (2 ^ 24) = 2 := by decide

theorem roundNearestEven_one (a : Nat) : roundNearestEven a 1 = a := by
  unfold roundNearestEven
  simp [Nat.mod_one]

theorem roundNearestEven_ge (a u : Nat) : a / u * u ≤ roundNearestEven a u := by
  unfold roundNearestEven
  split_ifs
  · exact le_refl _
  · exact Nat.mul_le_mul_right u (Nat.le_succ _)
  · exact le_refl _
  · exact Nat.mul_le_mul_right u (Nat.le_succ _)

theorem two_le_roundNearestEven (a : Nat) (h : 2 ^ 24 ≤ a) :
    2 ≤ roundNearestEven a (ulp32 a) := by
  rcases ulp32_spec a with ⟨h1, _⟩ | ⟨_, h2, h3⟩
  · omega
  · have hq : 1 ≤ a / ulp32 a := Nat.div_pos (by omega) (by omega)
    have hm : 1 * ulp32 a ≤ a / ulp32 a * ulp32 a := Nat.mul_le_mul_right _ hq
    have := roundNearestEven_ge a (ulp32 a)
    omega

theorem roundNearestEven_small (a : Nat) (h : a < 2 ^ 24) :
    roundNearestEven a (ulp32 a) = a := by
  rcases ulp32_spec a with ⟨_, h2⟩ | ⟨h1, _⟩
  · rw [h2, roundNearestEven_one]
  · omega

theorem floatOfInt_gt_one (n : Int) : 1 < floatOfInt n ↔ 1 < n := by
  unfold floatOfInt
  split_ifs with h0
  · by_cases hs : n.toNat < 2 ^ 24
    · rw [roundNearestEven_small _ hs]; omega
    · have := two_le_roundNearestEven n.toNat (by omega)
      omega
  · omega

theorem floatOfInt_exact (n : Int) (h : -2 ^ 24 ≤ n ∧ n ≤ 2 ^ 24) : floatOfInt n = n := by
  have h24 : roundNearestEven (2 ^ 24) (ulp32 (2 ^ 24)) = 2 ^ 24 := by decide
  unfold floatOfInt
  split_ifs with h0
  · by_cases hs : n.toNat < 2 ^ 24
    · rw [roundNearestEven_small _ hs]; omega
    · have he : n.toNat = 2 ^ 24 := by omega
      rw [he, h24]; omega
  · by_cases hs : (-n).toNat < 2 ^ 24
    · rw [roundNearestEven_small _ hs]; omega
    · have he : (-n).toNat = 2 ^ 24 := by omega
      rw [he, h24]; omega

/-! ## The calls of a realization -/

theorem issued_of_log_eq (g g2 : GLContext) (l : List GLCall) (h : g2.log = g.log ++ l) :
    issued g g2 = l := by
  unfold issued
  rw [h, List.drop_left]

theorem issued_self (g : GLContext) : issued g g = [] := by
  unfold issued
  simp

theorem initNoParam_fst (t : GLTexture) (g : GLContext) :
    (t.initNoParam g).1 = ⟨g.nextName, t.target_, t.pending_gl_task_, t.texture_parameters_⟩ := rfl

theorem initNoParam_log (t : GLTexture) (g : GLContext) :
    (t.initNoParam g).2.log = g.log ++
      [GLCall.genTextures 1 [g.nextName],
       GLCall.bindTexture t.target_ g.nextName,
       GLCall.texParameteri t.target_ GL_TEXTURE_WRAP_S GL_CLAMP_TO_EDGE,
       GLCall.texParameteri t.target_ GL_TEXTURE_WRAP_T GL_CLAMP_TO_EDGE,
       GLCall.texParameteri t.target_ GL_TEXTURE_WRAP_R GL_CLAMP_TO_EDGE,
       GLCall.texParameteri t.target_ GL_TEXTURE_MIN_FILTER GL_LINEAR,
       GLCall.texParameteri t.target_ GL_TEXTURE_MAG_FILTER GL_LINEAR,
       GLCall.bindTexture t.target_ 0] := by
  simp [GLTexture.initNoParam, glGenTextures, glBindTexture, glTexParameteri]

theorem initWithParam_fst (t : GLTexture) (g : GLContext) :
    (t.initWithParam g).1 = ⟨g.nextName, t.target_, t.pending_gl_task_, t.texture_parameters_⟩ := rfl

theorem initWithParam_log (t : GLTexture) (g : GLContext) :
    (t.initWithParam g).2.log = g.log ++
      ([GLCall.genTextures 1 [g.nextName], GLCall.bindTexture t.target_ g.nextName] ++
       (if 1 < floatOfInt (t.texture_parameters_ 2) then
          [GLCall.texParameterf t.target_ GL_TEXTURE_MAX_ANISOTROPY_EXT
            (floatOfInt (t.texture_parameters_ 2))]
        else []) ++
       [GLCall.texParameteri t.target_ GL_TEXTURE_WRAP_S (toGLint (toGLuint (t.texture_parameters_ 3))),
        GLCall.texParameteri t.target_ GL_TEXTURE_WRAP_T (toGLint (toGLuint (t.texture_parameters_ 4))),
        GLCall.texParameteri t.target_ GL_TEXTURE_MIN_FILTER (toGLint (toGLuint (t.texture_parameters_ 0))),
        GLCall.texParameteri t.target_ GL_TEXTURE_MAG_FILTER (toGLint (toGLuint (t.texture_parameters_ 1)))] ++
       (if 0 < t.texture_parameters_ 5 ∧ 0 < t.texture_parameters_ 6 ∧ 0 < t.texture_parameters_ 7 ∧
            0 < t.texture_parameters_ 8 ∧ 0 < t.texture_parameters_ 9 then
          [GLCall.texImage2D GL_TEXTURE_2D 0 (t.texture_parameters_ 5) (t.texture_parameters_ 6)
            (t.texture_parameters_ 7) 0 (toGLuint (t.texture_parameters_ 8))
            (toGLuint (t.texture_parameters_ 9)) none]
        else []) ++
       [GLCall.bindTexture t.target_ 0]) := by
  unfold GLTexture.initWithParam
  simp only []
  split_ifs <;> simp [glGenTextures, glBindTexture, glTexParameteri, glTexParameterf, glTexImage2D]

theorem runPendingGL_pending (t : GLTexture) (g : GLContext) :
    (t.runPendingGL g).1.pending_gl_task_ = GL_TASK_NONE := by
  unfold GLTexture.runPendingGL
  by_cases h : t.pending_gl_task_ = GL_TASK_NONE
  · rw [if_pos h]; exact h
  · rw [if_neg h]

theorem runPendingGL_of_none (t : GLTexture) (g : GLContext)
    (h : t.pending_gl_task_ = GL_TASK_NONE) : t.runPendingGL g = (t, g) := by
  unfold GLTexture.runPendingGL
  rw [if_pos h]

theorem runPendingGL_twice (t : GLTexture) (g : GLContext) :
    (t.runPendingGL g).1.runPendingGL (t.runPendingGL g).2 = t.runPendingGL g :=
  runPendingGL_of_none _ _ (runPendingGL_pending t g)

theorem runPendingGL_of_no_param (t : GLTexture) (g : GLContext)
    (h : t.pending_gl_task_ = GL_TASK_INIT_NO_PARAM) :
    t.runPendingGL g =
      (⟨g.nextName, t.target_, GL_TASK_NONE, t.texture_parameters_⟩, (t.initNoParam g).2) := by
  unfold GLTexture.runPendingGL
  have h0 : ¬ t.pending_gl_task_ = GL_TASK_NONE := by rw [h]; decide
  rw [if_neg h0, if_pos h]
  rfl

theorem runPendingGL_of_with_param (t : GLTexture) (g : GLContext)
    (h : t.pending_gl_task_ = GL_TASK_INIT_WITH_PARAM) :
    t.runPendingGL g =
      (⟨g.nextName, t.target_, GL_TASK_NONE, t.texture_parameters_⟩, (t.initWithParam g).2) := by
  unfold GLTexture.runPendingGL
  have h0 : ¬ t.pending_gl_task_ = GL_TASK_NONE := by rw [h]; decide
  have h1 : ¬ t.pending_gl_task_ = GL_TASK_INIT_NO_PARAM := by rw [h]; decide
  rw [if_neg h0, if_neg h1, if_pos h]
  rfl

theorem runPendingGL_of_other (t : GLTexture) (g : GLContext)
    (h0 : t.pending_gl_task_ ≠ GL_TASK_NONE) (h1 : t.pending_gl_task_ ≠ GL_TASK_INIT_NO_PARAM)
    (h2 : t.pending_gl_task_ ≠ GL_TASK_INIT_WITH_PARAM) :
    t.runPendingGL g = (⟨t.id_, t.target_, GL_TASK_NONE, t.texture_parameters_⟩, g) := by
  unfold GLTexture.runPendingGL
  rw [if_neg h0, if_neg h1, if_neg h2]

/-- C3: the default constructor issues no GL call, and the first id() of the object it
builds issues exactly: generate a name h, bind h, WRAP_S, WRAP_T, WRAP_R = CLAMP_TO_EDGE,
MIN_FILTER, MAG_FILTER = LINEAR, bind 0, all on the constructor's target; among these there
is no glTexImage2D and no anisotropy call; id() returns h (the name the context generated,
hence non-zero whenever that name is) and the pending task is GL_TASK_NONE afterwards. -/
theorem ctorDefault_first_id (raw : RawStorage) (target : Nat) (g : GLContext) :
    (GLTexture.ctorDefault raw target g).2 = g ∧
    ((GLTexture.ctorDefault raw target g).1.id g).1 = g.nextName ∧
    issued g ((GLTexture.ctorDefault raw target g).1.id g).2.2 =
      [GLCall.genTextures 1 [g.nextName],
       GLCall.bindTexture target g.nextName,
       GLCall.texParameteri target GL_TEXTURE_WRAP_S GL_CLAMP_TO_EDGE,
       GLCall.texParameteri target GL_TEXTURE_WRAP_T GL_CLAMP_TO_EDGE,
       GLCall.texParameteri target GL_TEXTURE_WRAP_R GL_CLAMP_TO_EDGE,
       GLCall.texParameteri target GL_TEXTURE_MIN_FILTER GL_LINEAR,
       GLCall.texParameteri target GL_TEXTURE_MAG_FILTER GL_LINEAR,
       GLCall.bindTexture target 0] ∧
    (∀ c ∈ issued g ((GLTexture.ctorDefault raw target g).1.id g).2.2,
      c.isTexImage2D = false ∧ c.isAnisotropy = false) ∧
    ((GLTexture.ctorDefault raw target g).1.id g).2.1.id_ = g.nextName ∧
    ((GLTexture.ctorDefault raw target g).1.id g).2.1.pending_gl_task_ = GL_TASK_NONE := by
  have hrun := runPendingGL_of_no_param (GLTexture.ctorDefault raw target g).1 g rfl
  have hlog : issued g ((GLTexture.ctorDefault raw target g).1.id g).2.2 = _ :=
    issued_of_log_eq g _ _
      (by unfold GLTexture.id; rw [hrun]; exact initNoParam_log _ g)
  refine ⟨rfl, ?_, hlog, ?_, ?_, ?_⟩
  · unfold GLTexture.id; rw [hrun]
  · rw [hlog]
    intro c hc
    simp only [List.mem_cons, List.mem_singleton, List.not_mem_nil, or_false] at hc
    rcases hc with h | h | h | h | h | h | h | h <;> subst h <;> exact ⟨rfl, rfl⟩
  · unfold GLTexture.id; rw [hrun]
  · unfold GLTexture.id; rw [hrun]

theorem ctorAdopt_id_of_clean (raw : RawStorage) (target : Nat) (texture_id : Int)
    (g : GLContext) (h : raw.pending_gl_task_ = GL_TASK_NONE) :
    ((GLTexture.ctorAdopt raw target texture_id g).1.id g).1 = toGLuint texture_id ∧
    issued g ((GLTexture.ctorAdopt raw target texture_id g).1.id g).2.2 = [] := by
  have hrun := runPendingGL_of_none (GLTexture.ctorAdopt raw target texture_id g).1 g h
  unfold GLTexture.id
  rw [hrun]
  exact ⟨rfl, issued_self g⟩

/-- C1 (failing input): the adopting constructor does not write `pending_gl_task_`.  Built
in storage that held 1 there, GLTexture(GL_TEXTURE_2D, 7) has the task
GL_TASK_INIT_NO_PARAM pending; its id() runs a whole realization (glGenTextures first) and
returns the generated name 1 instead of the supplied 7. -/
theorem ctorAdopt_stale_storage_id :
    (GLTexture.ctorAdopt staleStorage GL_TEXTURE_2D 7 freshContext).2.log = [] ∧
    (GLTexture.ctorAdopt staleStorage GL_TEXTURE_2D 7 freshContext).1.id_ = 7 ∧
    (GLTexture.ctorAdopt staleStorage GL_TEXTURE_2D 7 freshContext).1.pending_gl_task_ =
      GL_TASK_INIT_NO_PARAM ∧
    ((GLTexture.ctorAdopt staleStorage GL_TEXTURE_2D 7 freshContext).1.id freshContext).1 = 1 ∧
    issued freshContext
        ((GLTexture.ctorAdopt staleStorage GL_TEXTURE_2D 7 freshContext).1.id freshContext).2.2 =
      [GLCall.genTextures 1 [1],
       GLCall.bindTexture GL_TEXTURE_2D 1,
       GLCall.texParameteri GL_TEXTURE_2D GL_TEXTURE_WRAP_S GL_CLAMP_TO_EDGE,
       GLCall.texParameteri GL_TEXTURE_2D GL_TEXTURE_WRAP_T GL_CLAMP_TO_EDGE,
       GLCall.texParameteri GL_TEXTURE_2D GL_TEXTURE_WRAP_R GL_CLAMP_TO_EDGE,
       GLCall.texParameteri GL_TEXTURE_2D GL_TEXTURE_MIN_FILTER GL_LINEAR,
       GLCall.texParameteri GL_TEXTURE_2D GL_TEXTURE_MAG_FILTER GL_LINEAR,
       GLCall.bindTexture GL_TEXTURE_2D 0] := by
  decide

theorem countP_isGenTextures_initNoParam (t : GLTexture) (g : GLContext) :
    (issued g (t.initNoParam g).2).countP GLCall.isGenTextures = 1 := by
  rw [issued_of_log_eq g _ _ (initNoParam_log t g)]
  rfl

theorem countP_isGenTextures_initWithParam (t : GLTexture) (g : GLContext) :
    (issued g (t.initWithParam g).2).countP GLCall.isGenTextures = 1 := by
  rw [issued_of_log_eq g _ _ (initWithParam_log t g)]
  split_ifs <;> rfl

/-- C2: for an object built by the default or by the parameterized constructor, the first
runPendingGL() issues the calls of one realization, with exactly one glGenTextures; a
second runPendingGL() issues no call and leaves the object (id, target, pending task,
parameters) and the context as they were; id() does what runPendingGL() does and returns
the same name on both calls. -/
theorem runPendingGL_idempotent (raw : RawStorage) (target : Nat)
    (p : Fin MAX_TEXTURE_PARAM_NUM → Int) (g : GLContext) (t : GLTexture)
    (h : t = (GLTexture.ctorDefault raw target g).1 ∨ t = (GLTexture.ctorParams raw target p g).1) :
    (issued g (t.runPendingGL g).2).countP GLCall.isGenTextures = 1 ∧
    (t.runPendingGL g).1.runPendingGL (t.runPendingGL g).2 = t.runPendingGL g ∧
    issued (t.runPendingGL g).2 ((t.runPendingGL g).1.runPendingGL (t.runPendingGL g).2).2 = [] ∧
    issued g ((t.runPendingGL g).1.runPendingGL (t.runPendingGL g).2).2 =
      issued g (t.runPendingGL g).2 ∧
    (t.id g).2 = t.runPendingGL g ∧
    (t.id g).2.1.id (t.id g).2.2 = ((t.id g).1, (t.id g).2) := by
  have h2 := runPendingGL_twice t g
  refine ⟨?_, h2, ?_, ?_, rfl, ?_⟩
  · rcases h with h | h
    · rw [runPendingGL_of_no_param t g (by rw [h]; rfl)]
      exact countP_isGenTextures_initNoParam t g
    · rw [runPendingGL_of_with_param t g (by rw [h]; rfl)]
      exact countP_isGenTextures_initWithParam t g
  · rw [h2]; exact issued_self _
  · rw [h2]
  · have h3 : (t.id g).2.1.id (t.id g).2.2 =
        (((t.runPendingGL g).1.runPendingGL (t.runPendingGL g).2).1.id_,
          (t.runPendingGL g).1.runPendingGL (t.runPendingGL g).2) := rfl
    rw [h3, h2]
    rfl

/-- Witness of C2 on a default-constructed cube-map texture. -/
theorem runPendingGL_idempotent_witness :
    (issued freshContext
        ((GLTexture.ctorDefault zeroStorage GL_TEXTURE_CUBE_MAP freshContext).1.runPendingGL
          freshContext).2).countP GLCall.isGenTextures = 1 :=
  (runPendingGL_idempotent zeroStorage GL_TEXTURE_CUBE_MAP (fun _ => 0) freshContext
    (GLTexture.ctorDefault zeroStorage GL_TEXTURE_CUBE_MAP freshContext).1 (Or.inl rfl)).1

theorem exec_pending (m : Method) (s : GLTexture × GLContext)
    (h : s.1.pending_gl_task_ = GL_TASK_NONE) : m.exec s = s := by
  cases m
  · show (s.1.runPendingGL s.2) = s
    rw [runPendingGL_of_none _ _ h]
  · rfl
  · show (s.1.runPendingGL s.2) = s
    rw [runPendingGL_of_none _ _ h]

theorem execAll_of_none (ms : List Method) (s : GLTexture × GLContext)
    (h : s.1.pending_gl_task_ = GL_TASK_NONE) : execAll ms s = s := by
  induction ms with
  | nil => rfl
  | cons m ms ih =>
    show execAll ms (m.exec s) = s
    rw [exec_pending m s h]
    exact ih

theorem exec_preserves_invariant (m : Method) (s : GLTexture × GLContext)
    (h : PendingImpliesUnrealized s.1) : PendingImpliesUnrealized (m.exec s).1 := by
  cases m
  · intro hp
    exact absurd (runPendingGL_pending s.1 s.2) hp
  · exact h
  · intro hp
    exact absurd (runPendingGL_pending s.1 s.2) hp

theorem ctorDefault_invariant (raw : RawStorage) (target : Nat) (g : GLContext) :
    PendingImpliesUnrealized (GLTexture.ctorDefault raw target g).1 := fun _ => rfl

theorem ctorParams_invariant (raw : RawStorage) (target : Nat)
    (p : Fin MAX_TEXTURE_PARAM_NUM → Int) (g : GLContext) :
    PendingImpliesUnrealized (GLTexture.ctorParams raw target p g).1 := fun _ => rfl

theorem execAll_of_realized (ms : List Method) (s : GLTexture × GLContext)
    (hinv : PendingImpliesUnrealized s.1) (hid : s.1.id_ ≠ 0) : execAll ms s = s := by
  apply execAll_of_none
  by_contra hp
  exact hid (hinv hp)

/-- C7 (failing input): GLTexture(GL_TEXTURE_2D, 7) built in storage that held 1 where
`pending_gl_task_` lives starts with a task pending and id = 7, so "a task is pending
implies id = 0" fails right after construction; target() changes nothing, the first id()
then issues a glGenTextures and assigns id again (7 becomes 1). -/
theorem ctorAdopt_stale_storage_reassigns_id :
    ¬ PendingImpliesUnrealized (GLTexture.ctorAdopt staleStorage GL_TEXTURE_2D 7 freshContext).1 ∧
    (execAll [Method.target]
      (GLTexture.ctorAdopt staleStorage GL_TEXTURE_2D 7 freshContext)).1.id_ = 7 ∧
    (execAll [Method.target, Method.id]
      (GLTexture.ctorAdopt staleStorage GL_TEXTURE_2D 7 freshContext)).1.id_ = 1 ∧
    (issued freshContext (execAll [Method.target, Method.id]
      (GLTexture.ctorAdopt staleStorage GL_TEXTURE_2D 7 freshContext)).2).countP
        GLCall.isGenTextures = 1 := by
  decide

theorem realize_issued (raw : RawStorage) (target : Nat)
    (p : Fin MAX_TEXTURE_PARAM_NUM → Int) (g : GLContext) (hp : ∀ i, IsInt32 (p i)) :
    issued g ((GLTexture.ctorParams raw target p g).1.runPendingGL g).2 =
      [GLCall.genTextures 1 [g.nextName], GLCall.bindTexture target g.nextName] ++
      (if 1 < p 2 then
        [GLCall.texParameterf target GL_TEXTURE_MAX_ANISOTROPY_EXT (floatOfInt (p 2))]
       else []) ++
      [GLCall.texParameteri target GL_TEXTURE_WRAP_S (p 3),
       GLCall.texParameteri target GL_TEXTURE_WRAP_T (p 4),
       GLCall.texParameteri target GL_TEXTURE_MIN_FILTER (p 0),
       GLCall.texParameteri target GL_TEXTURE_MAG_FILTER (p 1)] ++
      (if 0 < p 5 ∧ 0 < p 6 ∧ 0 < p 7 ∧ 0 < p 8 ∧ 0 < p 9 then
        [GLCall.texImage2D GL_TEXTURE_2D 0 (p 5) (p 6) (p 7) 0 (p 8).toNat (p 9).toNat none]
       else []) ++
      [GLCall.bindTexture target 0] := by
  rw [runPendingGL_of_with_param _ g rfl]
  rw [issued_of_log_eq g _ _ (initWithParam_log _ g)]
  show _ ++ (if 1 < floatOfInt (p 2) then _ else _) ++
    [GLCall.texParameteri target GL_TEXTURE_WRAP_S (toGLint (toGLuint (p 3))),
     GLCall.texParameteri target GL_TEXTURE_WRAP_T (toGLint (toGLuint (p 4))),
     GLCall.texParameteri target GL_TEXTURE_MIN_FILTER (toGLint (toGLuint (p 0))),
     GLCall.texParameteri target GL_TEXTURE_MAG_FILTER (toGLint (toGLuint (p 1)))] ++
    (if 0 < p 5 ∧ 0 < p 6 ∧ 0 < p 7 ∧ 0 < p 8 ∧ 0 < p 9 then
      [GLCall.texImage2D GL_TEXTURE_2D 0 (p 5) (p 6) (p 7) 0 (toGLuint (p 8)) (toGLuint (p 9)) none]
     else []) ++ _ = _
  rw [toGLint_toGLuint _ (hp 3), toGLint_toGLuint _ (hp 4), toGLint_toGLuint _ (hp 0),
    toGLint_toGLuint _ (hp 1)]
  have ha : (1 < floatOfInt (p 2)) = (1 < p 2) := propext (floatOfInt_gt_one (p 2))
  simp only [ha]
  by_cases hpos : 0 < p 5 ∧ 0 < p 6 ∧ 0 < p 7 ∧ 0 < p 8 ∧ 0 < p 9
  · rw [if_pos hpos, if_pos hpos, toGLuint_eq_toNat _ (le_of_lt hpos.2.2.2.1) (hp 8),
      toGLuint_eq_toNat _ (le_of_lt hpos.2.2.2.2) (hp 9)]
    rfl
  · rw [if_neg hpos, if_neg hpos]
    rfl

/-- C4 (counterexample): with p[2] = 16777217 = 2^24 + 1 the realization issues one
anisotropy-set call, but it carries 16777216.0, the binary32 value `(float) p[2]`, and not
p[2]. -/
theorem anisotropy_value_counterexample :
    IsInt32 (anisoParams 2) ∧ 1 < anisoParams 2 ∧
    (issued freshContext
        ((GLTexture.ctorParams zeroStorage GL_TEXTURE_2D anisoParams freshContext).1.id
          freshContext).2.2).filter GLCall.isAnisotropy =
      [GLCall.texParameterf GL_TEXTURE_2D GL_TEXTURE_MAX_ANISOTROPY_EXT 16777216] ∧
    ¬ (issued freshContext
        ((GLTexture.ctorParams zeroStorage GL_TEXTURE_2D anisoParams freshContext).1.id
          freshContext).2.2).filter GLCall.isAnisotropy =
      [GLCall.texParameterf GL_TEXTURE_2D GL_TEXTURE_MAX_ANISOTROPY_EXT (anisoParams 2)] := by
  decide

/-- C4 (amended): realization of a parameter-constructed object issues no anisotropy-set
call when p[2] <= 1 and exactly one when p[2] > 1, a glTexParameterf on
GL_TEXTURE_MAX_ANISOTROPY_EXT and the object target carrying `(float) p[2]`, the binary32
value nearest to p[2]; that value is p[2] itself whenever |p[2]| <= 2^24.  This holds for
every int p[2], whatever the other nine parameters, for runPendingGL() and for id(). -/
theorem anisotropy_call (raw : RawStorage) (target : Nat)
    (p : Fin MAX_TEXTURE_PARAM_NUM → Int) (g : GLContext) :
    (issued g ((GLTexture.ctorParams raw target p g).1.runPendingGL g).2).filter
        GLCall.isAnisotropy =
      (if 1 < p 2 then
        [GLCall.texParameterf target GL_TEXTURE_MAX_ANISOTROPY_EXT (floatOfInt (p 2))]
       else []) ∧
    ((GLTexture.ctorParams raw target p g).1.id g).2 =
      (GLTexture.ctorParams raw target p g).1.runPendingGL g ∧
    (floatOfInt (p 2) = p 2 ∨ p 2 < -2 ^ 24 ∨ 2 ^ 24 < p 2) := by
  refine ⟨?_, rfl, ?_⟩
  · rw [runPendingGL_of_with_param _ g rfl]
    rw [issued_of_log_eq g _ _ (initWithParam_log _ g)]
    have ha : (1 < floatOfInt (p 2)) = (1 < p 2) := propext (floatOfInt_gt_one (p 2))
    show List.filter GLCall.isAnisotropy (_ ++ (if 1 < floatOfInt (p 2) then
        [GLCall.texParameterf target GL_TEXTURE_MAX_ANISOTROPY_EXT (floatOfInt (p 2))]
       else []) ++ _ ++ (if 0 < p 5 ∧ 0 < p 6 ∧ 0 < p 7 ∧ 0 < p 8 ∧ 0 < p 9 then _ else _) ++ _) = _
    simp only [ha]
    by_cases h1 : 1 < p 2 <;> by_cases h2 : 0 < p 5 ∧ 0 < p 6 ∧ 0 < p 7 ∧ 0 < p 8 ∧ 0 < p 9 <;>
      simp only [if_pos, if_neg, h1, h2, not_false_eq_true] <;> rfl
  · by_cases h : -2 ^ 24 ≤ p 2 ∧ p 2 ≤ 2 ^ 24
    · exact Or.inl (floatOfInt_exact _ h)
    · right; omega


/-- C5: when at least one of p[5..9] is <= 0, realization of a parameter-constructed
object issues no glTexImage2D call, yet generates a name, binds it, issues the four
sampling-parameter calls (WRAP_S, WRAP_T, MIN_FILTER, MAG_FILTER), unbinds, and leaves the
pending task GL_TASK_NONE; conversely, whatever p is, a glTexImage2D call among the issued
calls implies that all five are strictly positive. -/
theorem degenerate_parameters_skip_storage (raw : RawStorage) (target : Nat)
    (p : Fin MAX_TEXTURE_PARAM_NUM → Int) (g : GLContext) (hp : ∀ i, IsInt32 (p i)) :
    ((p 5 ≤ 0 ∨ p 6 ≤ 0 ∨ p 7 ≤ 0 ∨ p 8 ≤ 0 ∨ p 9 ≤ 0) →
      issued g ((GLTexture.ctorParams raw target p g).1.runPendingGL g).2 =
        [GLCall.genTextures 1 [g.nextName], GLCall.bindTexture target g.nextName] ++
        (if 1 < p 2 then
          [GLCall.texParameterf target GL_TEXTURE_MAX_ANISOTROPY_EXT (floatOfInt (p 2))]
         else []) ++
        [GLCall.texParameteri target GL_TEXTURE_WRAP_S (p 3),
         GLCall.texParameteri target GL_TEXTURE_WRAP_T (p 4),
         GLCall.texParameteri target GL_TEXTURE_MIN_FILTER (p 0),
         GLCall.texParameteri target GL_TEXTURE_MAG_FILTER (p 1),
         GLCall.bindTexture target 0] ∧
      (issued g ((GLTexture.ctorParams raw target p g).1.runPendingGL g).2).countP
        GLCall.isTexImage2D = 0 ∧
      ((GLTexture.ctorParams raw target p g).1.runPendingGL g).1.id_ = g.nextName ∧
      ((GLTexture.ctorParams raw target p g).1.runPendingGL g).1.pending_gl_task_ =
        GL_TASK_NONE) ∧
    ((∃ c ∈ issued g ((GLTexture.ctorParams raw target p g).1.runPendingGL g).2,
        c.isTexImage2D = true) →
      0 < p 5 ∧ 0 < p 6 ∧ 0 < p 7 ∧ 0 < p 8 ∧ 0 < p 9) := by
  have hiss := realize_issued raw target p g hp
  have hcount : ¬ (0 < p 5 ∧ 0 < p 6 ∧ 0 < p 7 ∧ 0 < p 8 ∧ 0 < p 9) →
      (issued g ((GLTexture.ctorParams raw target p g).1.runPendingGL g).2).countP
        GLCall.isTexImage2D = 0 := by
    intro hneg
    rw [hiss, if_neg hneg]
    by_cases h1 : 1 < p 2
    · rw [if_pos h1]; rfl
    · rw [if_neg h1]; rfl
  constructor
  · intro hdeg
    have hneg : ¬ (0 < p 5 ∧ 0 < p 6 ∧ 0 < p 7 ∧ 0 < p 8 ∧ 0 < p 9) := by omega
    refine ⟨?_, hcount hneg, ?_, runPendingGL_pending _ g⟩
    · rw [hiss, if_neg hneg]
      simp
    · rw [runPendingGL_of_with_param _ g rfl]
  · rintro ⟨c, hc, hci⟩
    by_contra hneg
    have h0 := hcount hneg
    rw [List.countP_eq_zero] at h0
    exact h0 c hc hci

/-- Witness of C5: the scenario of the spec with width = -1. -/
theorem degenerate_parameters_skip_storage_witness :
    issued freshContext
        ((GLTexture.ctorParams zeroStorage GL_TEXTURE_2D badWidthParams
          freshContext).1.runPendingGL freshContext).2 =
      [GLCall.genTextures 1 [1], GLCall.bindTexture GL_TEXTURE_2D 1,
       GLCall.texParameteri GL_TEXTURE_2D GL_TEXTURE_WRAP_S 33071,
       GLCall.texParameteri GL_TEXTURE_2D GL_TEXTURE_WRAP_T 33071,
       GLCall.texParameteri GL_TEXTURE_2D GL_TEXTURE_MIN_FILTER 9729,
       GLCall.texParameteri GL_TEXTURE_2D GL_TEXTURE_MAG_FILTER 9729,
       GLCall.bindTexture GL_TEXTURE_2D 0] :=
  ((degenerate_parameters_skip_storage zeroStorage GL_TEXTURE_2D badWidthParams freshContext
    (by decide)).1 (by decide)).1

/-- C8 (counterexample): with p = {GL_NEAREST, GL_LINEAR, 1, GL_CLAMP_TO_EDGE, GL_REPEAT,
0, ...} the realization sets WRAP_S to p[3] = 33071 and not to p[0] = 9728, WRAP_T to p[4],
MIN_FILTER to p[0] and MAG_FILTER to p[1]; no call sets WRAP_S to p[0]. -/
theorem sampling_layout_counterexample :
    (issued freshContext
        ((GLTexture.ctorParams zeroStorage GL_TEXTURE_2D samplerParams freshContext).1.runPendingGL
          freshContext).2).filterMap GLCall.intParameter =
      [(GL_TEXTURE_2D, GL_TEXTURE_WRAP_S, 33071), (GL_TEXTURE_2D, GL_TEXTURE_WRAP_T, 10497),
       (GL_TEXTURE_2D, GL_TEXTURE_MIN_FILTER, 9728), (GL_TEXTURE_2D, GL_TEXTURE_MAG_FILTER, 9729)] ∧
    samplerParams 0 = 9728 ∧ samplerParams 1 = 9729 ∧
    samplerParams 3 = 33071 ∧ samplerParams 4 = 10497 ∧
    GLCall.texParameteri GL_TEXTURE_2D GL_TEXTURE_WRAP_S (samplerParams 0) ∉
      issued freshContext
        ((GLTexture.ctorParams zeroStorage GL_TEXTURE_2D samplerParams freshContext).1.runPendingGL
          freshContext).2 := by
  decide

/-- C8 (amended): the parameterized constructor stores the ten ints by value, and the
realization of the object sets, on the object target, WRAP_S = p[3], WRAP_T = p[4],
MIN_FILTER = p[0], MAG_FILTER = p[1], each exactly once and in this order, after the bind
of the new name (and the anisotropy call, if any) and before the storage call (if any) and
the unbind; there is no other glTexParameteri call. -/
theorem sampling_parameter_layout (raw : RawStorage) (target : Nat)
    (p : Fin MAX_TEXTURE_PARAM_NUM → Int) (g : GLContext) (hp : ∀ i, IsInt32 (p i)) :
    (GLTexture.ctorParams raw target p g).1.texture_parameters_ = p ∧
    issued g ((GLTexture.ctorParams raw target p g).1.runPendingGL g).2 =
      [GLCall.genTextures 1 [g.nextName], GLCall.bindTexture target g.nextName] ++
      (if 1 < p 2 then
        [GLCall.texParameterf target GL_TEXTURE_MAX_ANISOTROPY_EXT (floatOfInt (p 2))]
       else []) ++
      [GLCall.texParameteri target GL_TEXTURE_WRAP_S (p 3),
       GLCall.texParameteri target GL_TEXTURE_WRAP_T (p 4),
       GLCall.texParameteri target GL_TEXTURE_MIN_FILTER (p 0),
       GLCall.texParameteri target GL_TEXTURE_MAG_FILTER (p 1)] ++
      (if 0 < p 5 ∧ 0 < p 6 ∧ 0 < p 7 ∧ 0 < p 8 ∧ 0 < p 9 then
        [GLCall.texImage2D GL_TEXTURE_2D 0 (p 5) (p 6) (p 7) 0 (p 8).toNat (p 9).toNat none]
       else []) ++
      [GLCall.bindTexture target 0] ∧
    (issued g ((GLTexture.ctorParams raw target p g).1.runPendingGL g).2).filterMap
        GLCall.intParameter =
      [(target, GL_TEXTURE_WRAP_S, p 3), (target, GL_TEXTURE_WRAP_T, p 4),
       (target, GL_TEXTURE_MIN_FILTER, p 0), (target, GL_TEXTURE_MAG_FILTER, p 1)] := by
  have hiss := realize_issued raw target p g hp
  refine ⟨rfl, hiss, ?_⟩
  rw [hiss]
  by_cases h1 : 1 < p 2 <;> by_cases h2 : 0 < p 5 ∧ 0 < p 6 ∧ 0 < p 7 ∧ 0 < p 8 ∧ 0 < p 9 <;>
    simp only [if_pos, if_neg, h1, h2, not_false_eq_true] <;> rfl

/-- Witness of C8 (amended), on the parameters of the counterexample. -/
theorem sampling_parameter_layout_witness :
    (issued freshContext
        ((GLTexture.ctorParams zeroStorage GL_TEXTURE_2D samplerParams freshContext).1.runPendingGL
          freshContext).2).filterMap GLCall.intParameter =
      [(GL_TEXTURE_2D, GL_TEXTURE_WRAP_S, samplerParams 3),
       (GL_TEXTURE_2D, GL_TEXTURE_WRAP_T, samplerParams 4),
       (GL_TEXTURE_2D, GL_TEXTURE_MIN_FILTER, samplerParams 0),
       (GL_TEXTURE_2D, GL_TEXTURE_MAG_FILTER, samplerParams 1)] :=
  (sampling_parameter_layout zeroStorage GL_TEXTURE_2D samplerParams freshContext
    (by decide)).2.2

theorem runPendingGL_target (t : GLTexture) (g : GLContext) :
    (t.runPendingGL g).1.target_ = t.target_ := by
  unfold GLTexture.runPendingGL
  by_cases h0 : t.pending_gl_task_ = GL_TASK_NONE
  · rw [if_pos h0]
  · rw [if_neg h0]
    by_cases h1 : t.pending_gl_task_ = GL_TASK_INIT_NO_PARAM
    · rw [if_pos h1]; rfl
    · rw [if_neg h1]
      by_cases h2 : t.pending_gl_task_ = GL_TASK_INIT_WITH_PARAM
      · rw [if_pos h2]; rfl
      · rw [if_neg h2]

theorem exec_target (m : Method) (s : GLTexture × GLContext) :
    (m.exec s).1.target_ = s.1.target_ := by
  cases m
  · exact runPendingGL_target s.1 s.2
  · rfl
  · exact runPendingGL_target s.1 s.2

theorem execAll_target (ms : List Method) (s : GLTexture × GLContext) :
    (execAll ms s).1.target_ = s.1.target_ := by
  induction ms generalizing s with
  | nil => rfl
  | cons m ms ih =>
    show (execAll ms (m.exec s)).1.target_ = s.1.target_
    rw [ih, exec_target]

theorem targetArg_initNoParam (t : GLTexture) (g : GLContext) (c : GLCall)
    (hc : c ∈ issued g (t.initNoParam g).2) (tgt : Nat) (ht : c.targetArg = some tgt) :
    tgt = if c.isTexImage2D = true then GL_TEXTURE_2D else t.target_ := by
  rw [issued_of_log_eq g _ _ (initNoParam_log t g)] at hc
  simp only [List.mem_cons, List.mem_singleton, List.not_mem_nil, or_false] at hc
  rcases hc with h | h | h | h | h | h | h | h <;> subst h <;>
    simp_all [GLCall.targetArg, GLCall.isTexImage2D]

theorem targetArg_initWithParam (t : GLTexture) (g : GLContext) (c : GLCall)
    (hc : c ∈ issued g (t.initWithParam g).2) (tgt : Nat) (ht : c.targetArg = some tgt) :
    tgt = if c.isTexImage2D = true then GL_TEXTURE_2D else t.target_ := by
  rw [issued_of_log_eq g _ _ (initWithParam_log t g)] at hc
  simp only [List.mem_append, List.mem_cons, List.mem_singleton, List.not_mem_nil, or_false] at hc
  rcases hc with (((((h | h) | h) | (h | h | h | h)) | h) | h)
  · subst h; simp [GLCall.targetArg] at ht
  · subst h; simp_all [GLCall.targetArg, GLCall.isTexImage2D]
  · split_ifs at h
    · simp only [List.mem_singleton] at h
      subst h; simp_all [GLCall.targetArg, GLCall.isTexImage2D]
    · simp at h
  · subst h; simp_all [GLCall.targetArg, GLCall.isTexImage2D]
  · subst h; simp_all [GLCall.targetArg, GLCall.isTexImage2D]
  · subst h; simp_all [GLCall.targetArg, GLCall.isTexImage2D]
  · subst h; simp_all [GLCall.targetArg, GLCall.isTexImage2D]
  · split_ifs at h
    · simp only [List.mem_singleton] at h
      subst h; simp_all [GLCall.targetArg, GLCall.isTexImage2D]
    · simp at h
  · subst h; simp_all [GLCall.targetArg, GLCall.isTexImage2D]

/-- C10: whatever the state of the object, every call issued by runPendingGL() that takes
a texture target is given the object target, except glTexImage2D, which is given
GL_TEXTURE_2D; runPendingGL() and id() leave the target unchanged, as does every sequence
of id(), target() and runPendingGL(); target() returns the stored target, which is the one
given to the constructor, and changes neither the object nor the context. -/
theorem target_consistency (t : GLTexture) (g : GLContext) (raw : RawStorage) (target : Nat)
    (texture_id : Int) (p : Fin MAX_TEXTURE_PARAM_NUM → Int) (ms : List Method) :
    (∀ c ∈ issued g (t.runPendingGL g).2, ∀ tgt, c.targetArg = some tgt →
      tgt = if c.isTexImage2D = true then GL_TEXTURE_2D else t.target_) ∧
    (t.runPendingGL g).1.target_ = t.target_ ∧
    (t.id g).2.1.target_ = t.target_ ∧
    t.target g = (t.target_, t, g) ∧
    ((execAll ms (t, g)).1.target (execAll ms (t, g)).2).1 = t.target_ ∧
    ((GLTexture.ctorDefault raw target g).1.target g).1 = target ∧
    ((GLTexture.ctorAdopt raw target texture_id g).1.target g).1 = target ∧
    ((GLTexture.ctorParams raw target p g).1.target g).1 = target := by
  refine ⟨?_, runPendingGL_target t g, runPendingGL_target t g, rfl,
    execAll_target ms (t, g), rfl, rfl, rfl⟩
  intro c hc tgt ht
  by_cases h0 : t.pending_gl_task_ = GL_TASK_NONE
  · rw [runPendingGL_of_none t g h0, issued_self] at hc
    simp at hc
  · by_cases h1 : t.pending_gl_task_ = GL_TASK_INIT_NO_PARAM
    · rw [runPendingGL_of_no_param t g h1] at hc
      exact targetArg_initNoParam t g c hc tgt ht
    · by_cases h2 : t.pending_gl_task_ = GL_TASK_INIT_WITH_PARAM
      · rw [runPendingGL_of_with_param t g h2] at hc
        exact targetArg_initWithParam t g c hc tgt ht
      · rw [runPendingGL_of_other t g h0 h1 h2, issued_self] at hc
        simp at hc

end gvr
